import Mathlib

/-!
Verification of the Arduino grow-light timer program (`src/main.cpp`).

The program drives a relay on an 18h-light / 6h-dark duty cycle.  A hardware
timer fires the ISR `Trigger_relay` once per hour (TIMER_TRIGGER_MS);
the ISR accumulates a `static uint8_t hours` counter, flips a static phase
flag when the counter reaches the current phase's hour count, and on each
flip bit-bangs an 8-bit command byte to a serial relay board over two GPIO
pins (Data = 7, Clock = 8).

The shallow embedding below models:
  * the compile-time configuration (`LIGHT_HOURS`, `DARK_HOURS`,
    `START_RELAY_ON`, `NumModules`, pin numbers);
  * one ISR invocation as a pure step function `trigStep` on the ISR's
    static state (`hours`, `toggle_relay_1`), returning the relay command
    it issues, if any (machine byte arithmetic of the `uint8_t` counter is
    `% 256`);
  * the command-byte construction (`commandByte`) exactly as the bitwise
    code writes it;
  * the bit-banged transmission as a trace of GPIO/delay events
    (`transmit`), with the four delay constants of the SerialRelay library
    kept as four distinct symbolic tags (their microsecond values live in
    the vendor header and are irrelevant to the ordering properties);
  * the `setup()` routine as a trace of log / timer / relay-command events,
    parameterised by whether `ITimer1.attachInterruptInterval` succeeded.
-/

namespace ArduinoTimer

/-- `#define LIGHT_HOURS 18` — hours with lights on. -/
def LIGHT_HOURS : Nat := 18

/-- `#define DARK_HOURS 6` — hours with lights off. -/
def DARK_HOURS : Nat := 6

/-- `#define START_RELAY_ON` is present in the source, so the initial phase
is "relay on" (light). -/
def START_RELAY_ON : Bool := true

/-- `const int NumModules = 1` — number of daisy-chained relay modules. -/
def NumModules : Nat := 1

/-- `#define RELAY_DATA 7` — the Data GPIO pin. -/
def RELAY_DATA : Nat := 7

/-- `#define RELAY_CLK 8` — the Clock GPIO pin. -/
def RELAY_CLK : Nat := 8

/-- `#define TIMER_TRIGGER_MS 3600000` — the fixed ISR period (one hour). -/
def TIMER_TRIGGER_MS : Nat := 3600000

/-- The global `volatile bool toggle_relay`, initialised `true` because
`START_RELAY_ON` is defined (lines 43-47).  No statement of the program
ever assigns to it afterwards — in particular `Trigger_relay` mutates its
own `static bool toggle_relay_1`, not this global — so in the embedding it
is the constant it is initialised to. -/
def toggle_relay : Bool := true

/-- The static state of the ISR `Trigger_relay`: the `static uint8_t hours`
tick counter and the `static bool toggle_relay_1` phase flag
(`true` = light / relay on, `false` = dark / relay off). -/
structure TrigState where
  hours : Nat
  phase : Bool
deriving DecidableEq, Repr

/-- Initial ISR static state: `hours = 0`, and `toggle_relay_1 = true`
because `START_RELAY_ON` is defined. -/
def initState : TrigState := ⟨0, START_RELAY_ON⟩

/-- Hour count of a phase: `LIGHT_HOURS` while the flag is true,
`DARK_HOURS` while it is false. -/
def phaseLen (p : Bool) : Nat := if p then LIGHT_HOURS else DARK_HOURS

/-- The flip condition of lines 113-116:
`(toggle_relay_1 == true && hours == LIGHT_HOURS) ||
 (toggle_relay_1 == false && hours == DARK_HOURS)`,
evaluated after `hours++`. -/
def flipCond (l d : Nat) (phase : Bool) (hrs : Nat) : Bool :=
  (phase && (hrs == l)) || (!phase && (hrs == d))

/-- One invocation of `Trigger_relay` (lines 102-168), abstracting the
relay transmission to the boolean command it sends: `hours++` on a
`uint8_t` wraps modulo 256; if the flip condition holds, the counter is
reset to 0, the flag is negated, and a command for the *new* flag value is
issued; otherwise nothing happens. -/
def trigStep (l d : Nat) (s : TrigState) : TrigState × Option Bool :=
  let h2 := (s.hours + 1) % 256
  if flipCond l d s.phase h2 then
    (⟨0, !s.phase⟩, some (!s.phase))
  else
    (⟨h2, s.phase⟩, none)

/-- Run `n` successive timer triggers from state `s`, collecting the relay
commands issued, in order. -/
def trigRun (l d : Nat) : TrigState → Nat → TrigState × List Bool
  | s, 0 => (s, [])
  | s, n + 1 =>
    let r := trigStep l d s
    let rest := trigRun l d r.1 n
    (rest.1, r.2.toList ++ rest.2)

/-- The command byte built at lines 132-141.  `_data[0]` is set to `0`;
for ON the code does `_data[0] |= (1 << 0)`, for OFF it does
`_data[0] &= ~(1 << 0)` where `~(1 << 0)` truncated to a byte is
`255 ^^^ 1 = 254`. -/
def commandByte (cmdOn : Bool) : Nat :=
  let d0 : Nat := 0
  if cmdOn then d0 ||| (1 <<< 0)
  else d0 &&& (255 ^^^ (1 <<< 0))

/-- The local array declaration `byte _data[0];` at line 132 declares an
array of zero elements. -/
def dataArrayLen : Nat := 0

/-- The declared `_data` array as a Lean list: `dataArrayLen` bytes. -/
def dataArrayDecl : List Nat := List.replicate dataArrayLen 0

/-- The four delay constants of the SerialRelay vendor header, kept
symbolic: `SERIAL_RELAY_DELAY_DATA`, `SERIAL_RELAY_DELAY_CLOCK_HIGH`,
`SERIAL_RELAY_DELAY_LATCH`, `SERIAL_RELAY_DELAY_CLOCK_LOW`. -/
inductive DelayKind where
  | dataSetup
  | clockHigh
  | latch
  | clockLow
deriving DecidableEq, Repr

/-- A GPIO-level event of the bit-banged transmission: driving a pin to a
level, or waiting one of the four named delays. -/
inductive Event where
  | writePin (pin : Nat) (level : Bool)
  | wait (d : DelayKind)
deriving DecidableEq, Repr

/-- One iteration of the transmission loop (lines 144-165) for loop index
`i` (1-based) and the current value of `mask_reset`: drive Data to the
masked bit, wait the data delay, drive Clock HIGH, wait the latch delay
when `i == 8` and the clock-high delay otherwise, drive Clock LOW, wait
the clock-low delay. -/
def txBit (data mask i : Nat) : List Event :=
  [ Event.writePin RELAY_DATA (data &&& mask != 0),
    Event.wait DelayKind.dataSetup,
    Event.writePin RELAY_CLK true,
    Event.wait (if i = 8 then DelayKind.latch else DelayKind.clockHigh),
    Event.writePin RELAY_CLK false,
    Event.wait DelayKind.clockLow ]

/-- The transmission loop, `k` iterations remaining; the loop index of the
current iteration is `8 - k + 1`, and `mask_reset >>= 1` after each
iteration. -/
def txIter (data : Nat) : Nat → Nat → List Event
  | _, 0 => []
  | mask, k + 1 => txBit data mask (8 - k) ++ txIter data (mask >>> 1) k

/-- The full transmission of a command byte (lines 143-167): 8 loop
iterations starting from `mask_reset = 0x80`, then `digitalWrite(7, LOW)`
to reset the Data line. -/
def transmit (data : Nat) : List Event :=
  txIter data 0x80 8 ++ [Event.writePin RELAY_DATA false]

/-- The level a pin is left at after a trace of events, starting from
`first`: the last write to that pin wins. -/
def pinLevelAfter (pin : Nat) (es : List Event) (first : Bool) : Bool :=
  es.foldl
    (fun cur e =>
      match e with
      | Event.writePin p l => if p = pin then l else cur
      | Event.wait _ => cur)
    first

/-- The frame shape as the spec words it (§4.2): 8 bits MSB first; for the
0-based bit index `j` the transmitted bit is bit `7 - j` of the byte; per
bit, Data is driven to the bit, the data-setup delay elapses, Clock goes
HIGH, the latch delay elapses on the final bit and the clock-high delay
otherwise, Clock goes LOW, the clock-low delay elapses; after all 8 bits
Data is driven LOW. -/
def specBitEvents (data j : Nat) : List Event :=
  [ Event.writePin RELAY_DATA (data.testBit (7 - j)),
    Event.wait DelayKind.dataSetup,
    Event.writePin RELAY_CLK true,
    Event.wait (if j = 7 then DelayKind.latch else DelayKind.clockHigh),
    Event.writePin RELAY_CLK false,
    Event.wait DelayKind.clockLow ]

/-- The whole frame as the spec words it. -/
def specFrame (data : Nat) : List Event :=
  (List.range 8).flatMap (specBitEvents data) ++ [Event.writePin RELAY_DATA false]

/-- Messages printed by `setup()`, kept symbolic. -/
inductive LogMsg where
  | resetWarning
  | startBanner
  | cpuFreq
  | timerStartOk
  | timerStartFail
deriving DecidableEq, Repr

/-- A relay command as handed to `SerialRelay::SetRelay(channel, state,
module)`; `state = true` is `SERIAL_RELAY_ON`. -/
structure RelayCmd where
  channel : Nat
  state : Bool
  module : Nat
deriving DecidableEq, Repr

/-- An observable action of `setup()`. -/
inductive SetupEvent where
  | log (m : LogMsg)
  | timerInit
  | setRelay (c : RelayCmd)
  | delayMs (ms : Nat)
deriving DecidableEq, Repr

/-- The startup loop of lines 227-233: for each module `i = 1..NumModules`
and channel `j = 1..4`, `SetRelay(j, SERIAL_RELAY_OFF, i)` followed by
`delay(1000)`. -/
def initAllRelaysOff : List SetupEvent :=
  (List.range NumModules).flatMap fun i =>
    (List.range 4).flatMap fun j =>
      [SetupEvent.setRelay ⟨j + 1, false, i + 1⟩, SetupEvent.delayMs 1000]

/-- `setup()` (lines 172-239) as an event trace, parameterised by whether
`ITimer1.attachInterruptInterval` returned success: serial banner logs,
`ITimer1.init()`, the success or failure log, the all-relays-OFF loop, and
(because `START_RELAY_ON` is defined) the initial
`SetRelay(1, SERIAL_RELAY_ON, 1)`. -/
def setup (attachOk : Bool) : List SetupEvent :=
  [SetupEvent.log LogMsg.resetWarning,
   SetupEvent.log LogMsg.startBanner,
   SetupEvent.log LogMsg.cpuFreq,
   SetupEvent.timerInit]
  ++ (if attachOk then [SetupEvent.log LogMsg.timerStartOk]
      else [SetupEvent.log LogMsg.timerStartFail])
  ++ initAllRelaysOff
  ++ [SetupEvent.setRelay ⟨1, true, 1⟩]

/-- The relay commands issued by a setup trace, in order. -/
def relayCmds (es : List SetupEvent) : List RelayCmd :=
  es.filterMap fun e =>
    match e with
    | SetupEvent.setRelay c => some c
    | _ => none

/-- `alternating p bs` holds when the list `bs` strictly alternates
starting after `p`: each element is the negation of its predecessor, the
first being the negation of `p`. -/
def alternating : Bool → List Bool → Bool
  | _, [] => true
  | p, b :: rest => (b == !p) && alternating b rest

/-- The timer capability: when `attachInterruptInterval` succeeded the ISR
fires once per period, so after `n` periods `n` triggers have run; when it
failed, the ISR never fires. -/
def triggersFired (attachOk : Bool) (n : Nat) : Nat :=
  if attachOk then n else 0

/-- The ISR static state after `n` timer periods have elapsed since
startup, given whether the timer was successfully armed. -/
def stateAfter (attachOk : Bool) (n : Nat) : TrigState :=
  (trigRun LIGHT_HOURS DARK_HOURS initState (triggersFired attachOk n)).1

/-! ## Theorems -/

/-- C1: under Policy A with phase lengths `LIGHT_HOURS`/`DARK_HOURS`, a
flip occurs exactly on the trigger whose count since the last flip equals
the hour-length of the current phase and never earlier; in particular from
the configured start (light, 18h/6h) triggers 1..17 leave the phase light,
trigger 18 flips to dark and resets the counter, triggers 19..23 leave it
dark, and trigger 24 flips back to light. -/
theorem C1_flip_exactly_at_phase_length :
    (∀ p : Bool, ∀ k, k < phaseLen p →
      trigRun LIGHT_HOURS DARK_HOURS ⟨0, p⟩ k = (⟨k, p⟩, []))
    ∧ (∀ p : Bool,
      trigRun LIGHT_HOURS DARK_HOURS ⟨0, p⟩ (phaseLen p) = (⟨0, !p⟩, [!p]))
    ∧ (∀ k, k ≤ 17 → (trigRun LIGHT_HOURS DARK_HOURS initState k).1 = ⟨k, true⟩)
    ∧ trigRun LIGHT_HOURS DARK_HOURS initState 18 = (⟨0, false⟩, [false])
    ∧ (∀ k, k ≤ 23 → 19 ≤ k →
      (trigRun LIGHT_HOURS DARK_HOURS initState k).1 = ⟨k - 18, false⟩)
    ∧ trigRun LIGHT_HOURS DARK_HOURS initState 24 = (⟨0, true⟩, [false, true]) := by
  decide

/-- Witness for C1 at a concrete early trigger: 5 triggers into the light
phase nothing has flipped. -/
theorem C1_witness :
    trigRun LIGHT_HOURS DARK_HOURS ⟨0, true⟩ 5 = (⟨5, true⟩, []) :=
  C1_flip_exactly_at_phase_length.1 true 5 (by decide)

/-- Helper for C2: from any ISR state, the list of commands issued by any
number of triggers alternates starting after the current phase flag. -/
theorem alternating_trigRun (l d : Nat) :
    ∀ (n : Nat) (s : TrigState),
      alternating s.phase (trigRun l d s n).2 = true := by
  intro n
  induction n with
  | zero => intro s; rfl
  | succ n ih =>
    intro s
    by_cases hf : flipCond l d s.phase ((s.hours + 1) % 256) = true
    · have h2 := ih ⟨0, !s.phase⟩
      simp [trigRun, trigStep, hf, alternating]
      simpa using h2
    · have h2 := ih ⟨(s.hours + 1) % 256, s.phase⟩
      simp [trigRun, trigStep, hf]
      simpa using h2

/-- C2: for every pair of positive phase durations and every initial
phase, the sequence of phases commanded over successive flips strictly
alternates starting from the initial phase. -/
theorem C2_commanded_phases_strictly_alternate :
    ∀ (light dark : Nat), 0 < light → 0 < dark →
      ∀ (start : Bool) (n : Nat),
        alternating start (trigRun light dark ⟨0, start⟩ n).2 = true := by
  intro light dark _ _ start n
  exact alternating_trigRun light dark n ⟨0, start⟩

/-- Witness for C2 at the configured durations over one full cycle. -/
theorem C2_witness :
    alternating true (trigRun LIGHT_HOURS DARK_HOURS ⟨0, true⟩ 24).2 = true :=
  C2_commanded_phases_strictly_alternate LIGHT_HOURS DARK_HOURS
    (by decide) (by decide) true 24

/-- C3: the command byte has bit `channel − 1 = 0` set iff the command is
ON; since it is built from a zeroed byte, ON gives `0b00000001`, OFF gives
`0b00000000`, and every other bit position is 0. -/
theorem C3_command_byte_encoding :
    commandByte true = 1 ∧ commandByte false = 0
    ∧ (∀ b : Bool, Nat.testBit (commandByte b) (1 - 1) = b)
    ∧ (∀ b : Bool, ∀ k, k < 8 → k ≠ 0 → Nat.testBit (commandByte b) k = false) := by
  decide

/-- Witness for C3: bit 3 of the ON byte is clear. -/
theorem C3_witness : Nat.testBit (commandByte true) 3 = false :=
  C3_command_byte_encoding.2.2.2 true 3 (by decide) (by decide)

set_option maxRecDepth 4000 in
/-- C4: for every byte, the transmission emits exactly 8 bits MSB first,
each bit as Data-write, data-setup wait, Clock HIGH, latch wait on the 8th
bit and clock-high wait otherwise, Clock LOW, clock-low wait; and the four
delay phases are pairwise distinct named constants. -/
theorem C4_transmission_frame :
    (∀ data, data < 256 → transmit data = specFrame data)
    ∧ (DelayKind.dataSetup ≠ DelayKind.clockHigh
      ∧ DelayKind.dataSetup ≠ DelayKind.latch
      ∧ DelayKind.dataSetup ≠ DelayKind.clockLow
      ∧ DelayKind.clockHigh ≠ DelayKind.latch
      ∧ DelayKind.clockHigh ≠ DelayKind.clockLow
      ∧ DelayKind.latch ≠ DelayKind.clockLow) := by
  decide

/-- Witness for C4 at byte 1 (the ON command byte). -/
theorem C4_witness : transmit 1 = specFrame 1 :=
  C4_transmission_frame.1 1 (by decide)

/-- C5: after any complete 8-bit transmission the Data line is driven LOW
and rests at LOW: whatever its level beforehand, the trace leaves it LOW,
and the final event of the trace is the Data-LOW write. -/
theorem C5_data_line_rests_low :
    ∀ (data : Nat) (start : Bool),
      pinLevelAfter RELAY_DATA (transmit data) start = false
      ∧ (transmit data).getLast? = some (Event.writePin RELAY_DATA false) := by
  intro data start
  refine ⟨?_, ?_⟩
  · simp [transmit, pinLevelAfter, List.foldl_append]
  · simp [transmit]

/-- Helper for C6: one trigger preserves the strict counter bound. -/
theorem trigStep_inv (s : TrigState) (h : s.hours < phaseLen s.phase) :
    ((trigStep LIGHT_HOURS DARK_HOURS s).1).hours
      < phaseLen ((trigStep LIGHT_HOURS DARK_HOURS s).1).phase := by
  have hlen : phaseLen s.phase ≤ 18 := by
    cases hp : s.phase <;> simp [phaseLen, LIGHT_HOURS, DARK_HOURS]
  have hmod : (s.hours + 1) % 256 = s.hours + 1 := Nat.mod_eq_of_lt (by omega)
  unfold trigStep
  rw [hmod]
  cases hf : flipCond LIGHT_HOURS DARK_HOURS s.phase (s.hours + 1)
  · simp only [hf, Bool.false_eq_true, if_false]
    cases hp : s.phase
    · rw [hp] at hf
      simp [flipCond, DARK_HOURS] at hf
      rw [hp] at h
      simp [phaseLen, DARK_HOURS] at h ⊢
      omega
    · rw [hp] at hf
      simp [flipCond, LIGHT_HOURS] at hf
      rw [hp] at h
      simp [phaseLen, LIGHT_HOURS] at h ⊢
      omega
  · simp only [hf, if_true]
    cases s.phase <;> simp [phaseLen, LIGHT_HOURS, DARK_HOURS]

/-- Helper for C6: the strict counter bound holds along any run. -/
theorem trigRun_inv (n : Nat) :
    ∀ s : TrigState, s.hours < phaseLen s.phase →
      ((trigRun LIGHT_HOURS DARK_HOURS s n).1).hours
        < phaseLen ((trigRun LIGHT_HOURS DARK_HOURS s n).1).phase := by
  induction n with
  | zero => intro s h; exact h
  | succ n ih =>
    intro s h
    exact ih _ (trigStep_inv s h)

/-- C6: in every reachable scheduler state the hour counter stays bounded
by the current phase's configured length, and any trigger that issues a
relay command leaves the counter at zero and commands exactly the new
phase. -/
theorem C6_counter_bounded_reset_on_flip :
    (∀ n : Nat, ((trigRun LIGHT_HOURS DARK_HOURS initState n).1).hours
      ≤ phaseLen ((trigRun LIGHT_HOURS DARK_HOURS initState n).1).phase)
    ∧ (∀ s : TrigState, ∀ b : Bool,
      (trigStep LIGHT_HOURS DARK_HOURS s).2 = some b →
        ((trigStep LIGHT_HOURS DARK_HOURS s).1).hours = 0
        ∧ b = ((trigStep LIGHT_HOURS DARK_HOURS s).1).phase) := by
  constructor
  · intro n
    exact Nat.le_of_lt (trigRun_inv n initState (by decide))
  · intro s b hb
    cases hf : flipCond LIGHT_HOURS DARK_HOURS s.phase ((s.hours + 1) % 256)
    · have h1 : trigStep LIGHT_HOURS DARK_HOURS s
          = (⟨(s.hours + 1) % 256, s.phase⟩, none) := by
        unfold trigStep; simp [hf]
      rw [h1] at hb
      exact absurd hb (by simp)
    · have h1 : trigStep LIGHT_HOURS DARK_HOURS s
          = (⟨0, !s.phase⟩, some (!s.phase)) := by
        unfold trigStep; simp [hf]
      rw [h1] at hb
      rw [h1]
      simp only [Option.some.injEq] at hb
      exact ⟨rfl, hb.symm⟩

/-- Witness for C6 at the 18th trigger of the light phase: the counter is
reset and the commanded phase is the new (dark) one. -/
theorem C6_witness :
    ((trigStep LIGHT_HOURS DARK_HOURS ⟨17, true⟩).1).hours = 0
    ∧ false = ((trigStep LIGHT_HOURS DARK_HOURS ⟨17, true⟩).1).phase :=
  C6_counter_bounded_reset_on_flip.2 ⟨17, true⟩ false (by decide)

/-- C7 (code bug): after the 18th trigger the relay was last commanded OFF
(dark), yet the global `volatile bool toggle_relay` — the only phase flag
readable from the main context — still holds its initial value `true`,
because `Trigger_relay` mutates its local static `toggle_relay_1` and
never writes the global. -/
theorem C7_global_flag_stale_after_first_flip :
    (trigRun LIGHT_HOURS DARK_HOURS initState 18).2.getLast? = some false
    ∧ toggle_relay = true
    ∧ some toggle_relay ≠ (trigRun LIGHT_HOURS DARK_HOURS initState 18).2.getLast? := by
  decide

/-- C8: when arming the timer fails, `setup` differs from the successful
trace only in the single log event at position 4, issues exactly the same
relay commands (all OFF then the initial ON), and afterwards no trigger
ever fires, so the scheduler state stays frozen at its initial value with
no further relay command. -/
theorem C8_attach_failure_nonfatal :
    ((setup false).take 4 = (setup true).take 4)
    ∧ ((setup false).drop 5 = (setup true).drop 5)
    ∧ (setup false).get? 4 = some (SetupEvent.log LogMsg.timerStartFail)
    ∧ (setup true).get? 4 = some (SetupEvent.log LogMsg.timerStartOk)
    ∧ relayCmds (setup false) = relayCmds (setup true)
    ∧ relayCmds (setup false)
        = [⟨1, false, 1⟩, ⟨2, false, 1⟩, ⟨3, false, 1⟩, ⟨4, false, 1⟩, ⟨1, true, 1⟩]
    ∧ (∀ n : Nat, stateAfter false n = initState
        ∧ (trigRun LIGHT_HOURS DARK_HOURS initState (triggersFired false n)).2 = []) := by
  refine ⟨by decide, by decide, by decide, by decide, by decide, by decide, ?_⟩
  intro n
  exact ⟨rfl, rfl⟩

/-- C9: at startup every channel 1..4 of every module 1..NumModules is
commanded OFF, the commands before the last are exactly those OFF
commands, and the initial ON command is the last relay command issued —
regardless of whether the timer was armed. -/
theorem C9_all_off_before_initial_on :
    ∀ attachOk : Bool,
      relayCmds (setup attachOk)
        = [⟨1, false, 1⟩, ⟨2, false, 1⟩, ⟨3, false, 1⟩, ⟨4, false, 1⟩, ⟨1, true, 1⟩]
      ∧ (∀ m, m < NumModules → ∀ c, c < 4 →
          RelayCmd.mk (c + 1) false (m + 1) ∈ relayCmds (setup attachOk))
      ∧ (relayCmds (setup attachOk)).getLast? = some ⟨1, true, 1⟩
      ∧ (∀ k, k < 4 →
          (relayCmds (setup attachOk)).get? k = some ⟨k + 1, false, 1⟩) := by
  decide

/-- Witness for C9: channel 3 of module 1 is commanded OFF during a
successful startup. -/
theorem C9_witness : RelayCmd.mk 3 false 1 ∈ relayCmds (setup true) :=
  (C9_all_off_before_initial_on true).2.1 0 (by decide) 2 (by decide)

/-- C10: the local array `byte _data[0]` has zero elements, so under a
total indexing embedding every access `_data[i]` — in particular
`_data[0]` — yields no value. -/
theorem C10_zero_length_data_array :
    dataArrayLen = 0 ∧ dataArrayDecl.length = 0
    ∧ (∀ i : Nat, dataArrayDecl.get? i = none)
    ∧ dataArrayDecl.get? 0 = none
    ∧ ¬ 0 < dataArrayLen := by
  refine ⟨rfl, rfl, ?_, rfl, by decide⟩
  intro i
  cases i <;> rfl

end ArduinoTimer
